import Mathlib

/-!
Verification of the research-agent repository against its specification.

The Python sources are shallowly embedded: dataclasses become structures,
dicts with known keys become structures or association lists, Python floats
become exact rationals (ℚ), and fallible code returns Except.  Functions are
translated statement by statement from the Python source files named in the
comments; helper functions replicate the behaviour of the Python standard
library (str methods, the regular expressions actually used) on the ASCII
strings this code processes.
-/

namespace RA

/-! ## Embedding of src/task_graph.py -/

/-- A value in a task's `args` dict (the templates only hold strings and
small ints). -/
inductive ArgVal where
  | str (s : String)
  | nat (n : Nat)
  deriving DecidableEq, Repr

/-- `Task` dataclass from src/task_graph.py.  `result` holds an arbitrary
Python value in the source; the claims never inspect it, so it is embedded
as `Option ArgVal`.  `created_at` defaults to a wall-clock timestamp in the
source (an environment input); the claims never read it. -/
structure Task where
  id : String
  tool : String
  args : List (String × ArgVal)
  depends_on : List String
  status : String := "pending"
  result : Option ArgVal := none
  error : Option String := none
  created_at : String := ""
  started_at : Option String := none
  completed_at : Option String := none
  deriving DecidableEq, Repr

/-- `ResearchGraph` dataclass from src/task_graph.py.  `graph_id` defaults
to a fresh uuid in the source (an environment input); the claims never read
it. -/
structure ResearchGraph where
  topic : String
  tasks : List Task
  graph_id : String := ""
  status : String := "planning"
  created_at : String := ""
  deriving DecidableEq, Repr

/-- `next((t for t in graph.tasks if t.id == dep_id), None)` from
`TaskPlanner.get_ready_tasks`: the first task bearing the id, if any. -/
def findTask (tasks : List Task) (tid : String) : Option Task :=
  tasks.find? (fun t => t.id == tid)

/-- The dependency check inside `TaskPlanner.get_ready_tasks`
(src/task_graph.py lines 133-139): every dependency id must resolve to a
task whose status is "completed"; a missing task or a non-completed status
sets `dependencies_met = False`. -/
def depsCompleted (tasks : List Task) (t : Task) : Bool :=
  t.depends_on.all (fun d =>
    match findTask tasks d with
    | some dt => dt.status == "completed"
    | none => false)

/-- `TaskPlanner.get_ready_tasks` (src/task_graph.py lines 125-144):
pending tasks whose dependencies are all completed, in graph declaration
order. -/
def getReadyTasks (g : ResearchGraph) : List Task :=
  g.tasks.filter (fun t => t.status == "pending" && depsCompleted g.tasks t)

/-- The ready-set as the specification words it (claim C1): pending tasks
whose every `depends_on` id names a task in the same graph with status
completed, in declaration order. -/
def readyPerSpec (g : ResearchGraph) : List Task :=
  g.tasks.filter (fun t => t.status == "pending" &&
    t.depends_on.all (fun d =>
      g.tasks.any (fun u => u.id == d && u.status == "completed")))

/-- A concrete graph exercising C1: task B depends on the completed task A
and is ready; task C has a dangling dependency and is not ready. -/
def g0 : ResearchGraph :=
  { topic := "t"
    tasks :=
      [ { id := "A", tool := "web_search", args := [], depends_on := [],
          status := "completed" }
      , { id := "B", tool := "web_search", args := [], depends_on := ["A"] }
      , { id := "C", tool := "web_search", args := [], depends_on := ["MISSING"] } ] }

/-! ## Embedding of src/autonomous_researcher.py (data model) -/

/-- Python `str.lower()` (the strings involved are ASCII). -/
def strLower (s : String) : String :=
  ⟨s.data.map Char.toLower⟩

/-- Python substring containment `needle in hay` on char lists. -/
def subOfChars (needle hay : List Char) : Bool :=
  match hay with
  | [] => needle.isEmpty
  | c :: t => needle.isPrefixOf (c :: t) || subOfChars needle t

/-- Exact rational addition, written through `mkRat` so that it evaluates
inside the kernel; `pyAdd_eq_add` below proves it is ordinary addition on
ℚ.  Python float arithmetic is embedded as exact rational arithmetic. -/
def pyAdd (a b : ℚ) : ℚ :=
  mkRat (a.num * b.den + b.num * a.den) (a.den * b.den)

/-- Exact rational multiplication through `mkRat`
(`pyMul_eq_mul` below). -/
def pyMul (a b : ℚ) : ℚ :=
  mkRat (a.num * b.num) (a.den * b.den)

/-- Exact rational subtraction through `mkRat` (`pySub_eq_sub` below). -/
def pySub (a b : ℚ) : ℚ :=
  mkRat (a.num * b.den - b.num * a.den) (a.den * b.den)

/-- The rational `a / n` for a natural divisor, through `mkRat`
(`ratio_eq_div` below); every division in the embedded code divides by a
positive natural number (`max(..., 1)` in the source). -/
def ratio (a n : Nat) : ℚ :=
  mkRat a n

/-- Python `needle in hay` for strings. -/
def pySubstr (needle hay : String) : Bool :=
  subOfChars needle.data hay.data

/-- The per-source `insights` dict written by `_fetch_content`; the
completion and quality code reads only `author_perspective`
(`insights.get('author_perspective', 'unknown')`). -/
structure SourceInsights where
  author_perspective : Option String := none
  deriving DecidableEq, Repr

/-- A source dict as the agents build them (`_parse_search_results`,
`_fetch_content`, `_identify_gaps`); only the keys the embedded functions
read are modelled.  A missing key is the field's default / `none`. -/
structure Source where
  title : String := ""
  url : String := ""
  description : String := ""
  content_processed : Bool := false
  insights : Option SourceInsights := none
  perspective : Option String := none
  deriving DecidableEq, Repr

/-- `ResearchGoal` dataclass (src/autonomous_researcher.py lines 17-38);
floats are embedded as exact rationals. -/
structure ResearchGoal where
  topic : String := ""
  research_mandate : String := ""
  quality_threshold : ℚ := mkRat 6 10
  max_sources : Nat := 15
  min_sources : Nat := 5
  required_perspectives : List String :=
    ["evangelical", "progressive", "orthodox", "academic"]
  completion_criteria : List String :=
    [ "sufficient_sources_found"
    , "multiple_perspectives_represented"
    , "key_themes_identified"
    , "quality_score_met"
    , "citations_validated" ]
  deriving DecidableEq, Repr

/-- The context-level `insights` dict; the embedded functions read only
`insights.get('key_themes', {})` (a dict theme ↦ count, kept in insertion
order). -/
structure ContextInsights where
  key_themes : List (String × Nat) := []
  deriving DecidableEq, Repr

/-- `ResearchContext` dataclass (src/autonomous_researcher.py lines 40-66). -/
structure RContext where
  goal : ResearchGoal
  sources : List Source := []
  insights : ContextInsights := {}
  quality_score : ℚ := 0
  current_focus : String := "initial_discovery"
  completed_criteria : List String := []
  failed_attempts : Nat := 0
  action_history : List String := []
  max_same_action_attempts : Nat := 3
  deriving DecidableEq, Repr

/-- Python `lst[-m:]`: the last `m` elements, except that `lst[-0:]` is the
whole list. -/
def pyTakeLast (l : List String) (m : Nat) : List String :=
  if m = 0 then l else l.drop (l.length - m)

/-- `ResearchContext.can_perform_action` (src/autonomous_researcher.py
lines 63-66): `recent_actions = self.action_history[-m:]` followed by
`return recent_actions.count(action) < m`. -/
def canPerformAction (c : RContext) (action : String) : Bool :=
  let recent := pyTakeLast c.action_history c.max_same_action_attempts
  decide (recent.count action < c.max_same_action_attempts)

/-- `AutonomousResearchAgent._find_missing_perspectives`
(src/autonomous_researcher.py lines 764-773): a required perspective is
found when it occurs as a substring of some source's lower-cased
description; the missing ones are listed in `required_perspectives`
order. -/
def findMissingPerspectives (c : RContext) : List String :=
  c.goal.required_perspectives.filter (fun p =>
    ! c.sources.any (fun s => pySubstr p (strLower s.description)))

/-- The perspectives that are present among the collected sources (the
complement of `findMissingPerspectives`) — this is how claim C3 words the
criterion. -/
def presentPerspectives (c : RContext) : List String :=
  c.goal.required_perspectives.filter (fun p =>
    c.sources.any (fun s => pySubstr p (strLower s.description)))

/-- The `criteria_status` dict computed by
`AutonomousResearchAgent._is_research_complete`
(src/autonomous_researcher.py lines 452-469), in insertion order.  Note
that the source sets `multiple_perspectives_represented` from
`perspectives_found = len(self._find_missing_perspectives(context))` —
the count of MISSING perspectives. -/
def completionCriteriaStatus (c : RContext) : List (String × Bool) :=
  [ ("sufficient_sources_found", decide (c.goal.min_sources ≤ c.sources.length))
  , ("multiple_perspectives_represented",
      decide (2 ≤ (findMissingPerspectives c).length))
  , ("quality_score_met", decide (c.goal.quality_threshold ≤ c.quality_score))
  , ("key_themes_identified", decide (3 ≤ c.insights.key_themes.length))
  , ("citations_validated", decide (3 ≤ c.sources.length)) ]

/-- `context.completed_criteria = [k for k, v in criteria_status.items() if v]`
(src/autonomous_researcher.py line 472). -/
def completedCriteria (c : RContext) : List String :=
  ((completionCriteriaStatus c).filter (fun kv => kv.2)).map (fun kv => kv.1)

/-- `AutonomousResearchAgent._is_research_complete`
(src/autonomous_researcher.py lines 448-485): `basic_completion` requires
`len(sources) >= min_sources`, `quality_score >= 0.4` (a hardcoded
constant, not `goal.quality_threshold`) and at least 3 completed criteria;
otherwise completion is forced by `failed_attempts >= 5`. -/
def isResearchComplete (c : RContext) : Bool :=
  let completed := completedCriteria c
  let basic := decide (c.goal.min_sources ≤ c.sources.length) &&
    decide (mkRat 4 10 ≤ c.quality_score) &&
    decide (3 ≤ completed.length)
  basic || decide (5 ≤ c.failed_attempts)

/-- `AutonomousResearchAgent._assess_quality`
(src/autonomous_researcher.py lines 626-654).  The perspective set is
collected from every source whose `insights` dict is truthy
(`if source.get('insights')`), reading
`insights.get('author_perspective', 'unknown')`; a source whose dict has
no `author_perspective` key contributes "unknown". -/
def assessQuality (c : RContext) : ℚ :=
  let s1 : ℚ := if c.goal.min_sources ≤ c.sources.length then mkRat 3 10 else 0
  let processed := (c.sources.filter (fun s => s.content_processed)).length
  let s2 : ℚ :=
    if 3 ≤ processed then mkRat 4 10 else if 1 ≤ processed then mkRat 2 10 else 0
  let perspectives :=
    (c.sources.filterMap (fun s =>
      s.insights.map (fun i => i.author_perspective.getD "unknown"))).dedup
  let s3 : ℚ := if 2 ≤ perspectives.length then mkRat 2 10 else 0
  let s4 : ℚ := if 3 ≤ c.insights.key_themes.length then mkRat 1 10 else 0
  min (pyAdd (pyAdd (pyAdd s1 s2) s3) s4) 1

/-- The quality formula exactly as claim C7 words it: identical weights,
but the perspective-diversity credit counts distinct perspectives observed
among the *content-processed* sources. -/
def assessQualityClaim (c : RContext) : ℚ :=
  let s1 : ℚ := if c.goal.min_sources ≤ c.sources.length then mkRat 3 10 else 0
  let processed := c.sources.filter (fun s => s.content_processed)
  let s2 : ℚ :=
    if 3 ≤ processed.length then mkRat 4 10
    else if 1 ≤ processed.length then mkRat 2 10 else 0
  let perspectives :=
    (processed.filterMap (fun s =>
      s.insights.map (fun i => i.author_perspective.getD "unknown"))).dedup
  let s3 : ℚ := if 2 ≤ perspectives.length then mkRat 2 10 else 0
  let s4 : ℚ := if 3 ≤ c.insights.key_themes.length then mkRat 1 10 else 0
  min (pyAdd (pyAdd (pyAdd s1 s2) s3) s4) 1

/-- The quality formula of the amended claim C7: as claim C7, with the
perspective-diversity credit counting distinct `author_perspective` values
(default "unknown") of the sources that carry an `insights` dict. -/
def assessQualityAmended (c : RContext) : ℚ :=
  let sourceSufficiency : ℚ :=
    if c.goal.min_sources ≤ c.sources.length then 3/10 else 0
  let processedCount := (c.sources.filter (fun s => s.content_processed)).length
  let contentDepth : ℚ :=
    if 3 ≤ processedCount then 4/10 else if 1 ≤ processedCount then 2/10 else 0
  let observed :=
    (c.sources.filterMap (fun s =>
      s.insights.map (fun i => i.author_perspective.getD "unknown"))).dedup
  let perspectiveDiversity : ℚ := if 2 ≤ observed.length then 2/10 else 0
  let themeCoverage : ℚ := if 3 ≤ c.insights.key_themes.length then 1/10 else 0
  min (sourceSufficiency + contentDepth + perspectiveDiversity + themeCoverage) 1

/-- Counterexample context for C2: five sources, three key themes, quality
0.5 — below the goal's threshold 0.6 but at or above the hardcoded 0.4. -/
def ctx2 : RContext :=
  { goal := {}
    sources := List.replicate 5 {}
    insights := { key_themes := [("a", 1), ("b", 1), ("c", 1)] }
    quality_score := mkRat 1 2
    failed_attempts := 0 }

/-- Failing input for C3: a context with no sources at all, so no
perspective is present (and all four are missing). -/
def ctx3 : RContext :=
  { goal := {}, sources := [] }

/-- Counterexample context for C7: two unprocessed sources carrying
insights with two distinct perspectives. -/
def ctx7 : RContext :=
  { goal := {}
    sources :=
      [ { insights := some { author_perspective := some "evangelical" } }
      , { insights := some { author_perspective := some "progressive" } } ] }

/-- The empty context of C7's scenario: `sources=[]`, `insights={}`. -/
def ctxEmpty : RContext :=
  { goal := {} }

/-! ## Embedding of src/enhanced_autonomous_researcher.py -/

/-- One scratchpad entry (`ResearchContext.add_to_scratchpad`,
src/enhanced_autonomous_researcher.py lines 87-94). -/
structure ScratchEntry where
  step : Nat
  thought : String
  action : String
  result : String
  deriving DecidableEq, Repr

/-- The enhanced `ResearchContext`
(src/enhanced_autonomous_researcher.py lines 46-94).
`validation_results` holds run data the embedded decision functions never
read; it is not modelled. -/
structure EContext where
  goal : ResearchGoal
  sources : List Source := []
  insights : ContextInsights := {}
  quality_score : ℚ := 0
  current_focus : String := "initial_discovery"
  completed_criteria : List String := []
  failed_attempts : Nat := 0
  action_history : List String := []
  max_same_action_attempts : Nat := 3
  task_graph : Option ResearchGraph := none
  scratchpad : List ScratchEntry := []
  deriving DecidableEq, Repr

/-- Enhanced `ResearchContext.can_perform_action`
(src/enhanced_autonomous_researcher.py lines 78-85): only when the history
already holds at least `max_same_action_attempts` entries does it inspect
the last `max_same_action_attempts` of them; the action is disallowed when
it fills all of them. -/
def eCanPerformAction (c : EContext) (action : String) : Bool :=
  if c.max_same_action_attempts ≤ c.action_history.length then
    let recent := pyTakeLast c.action_history c.max_same_action_attempts
    if c.max_same_action_attempts ≤ recent.count action then false else true
  else true

/-- `ResearchContext.add_to_scratchpad`
(src/enhanced_autonomous_researcher.py lines 87-94). -/
def addToScratchpad (c : EContext) (thought action result : String) : EContext :=
  { c with scratchpad := c.scratchpad ++
      [{ step := c.scratchpad.length + 1, thought := thought,
         action := action, result := result }] }

/-- A suggestion dict produced by `_identify_gaps`. -/
structure Suggestion where
  action : String := "discover_sources"
  strategy : String
  query : String
  deriving DecidableEq, Repr

/-- The result dict of `_identify_gaps`. -/
structure GapResult where
  gaps : List String
  suggestions : List Suggestion
  deriving DecidableEq, Repr

/-- `EnhancedAutonomousResearchAgent._identify_gaps`
(src/enhanced_autonomous_researcher.py lines 558-603).  The missing
perspectives are a Python set difference iterated in set order; the
embedding lists them in `required_perspectives` order (set iteration order
is an implementation detail no theorem below depends on: the inputs used
concretely leave at most the list order observable). -/
def identifyGaps (c : EContext) : GapResult :=
  let current := c.sources.filterMap (fun s => s.perspective)
  let missing := c.goal.required_perspectives.filter (fun p => ! current.contains p)
  let pGaps : List String :=
    if missing.isEmpty then []
    else ["Missing perspectives: " ++ String.intercalate ", " missing]
  let pSuggs : List Suggestion :=
    missing.map (fun p =>
      { strategy := "targeted_search"
        query := c.goal.topic ++ " " ++ p ++ " perspective scholarly" })
  let themePairs :=
    if c.insights.key_themes.isEmpty then []
    else c.insights.key_themes.filter (fun tc => tc.2 < 2)
  let tGaps : List String :=
    themePairs.map (fun tc =>
      "Low coverage in " ++ tc.1 ++ ": only " ++ toString tc.2 ++ " sources")
  let tSuggs : List Suggestion :=
    themePairs.map (fun tc =>
      { strategy := "theme_focused", query := c.goal.topic ++ " " ++ tc.1 ++ " analysis" })
  let cGaps : List String :=
    if c.sources.length < c.goal.min_sources then
      ["Insufficient sources: " ++ toString c.sources.length ++
        " found, need at least " ++ toString c.goal.min_sources]
    else []
  let cSuggs : List Suggestion :=
    if c.sources.length < c.goal.min_sources then
      [{ strategy := "broad_search", query := c.goal.topic ++ " scholarly sources" }]
    else []
  { gaps := pGaps ++ tGaps ++ cGaps, suggestions := pSuggs ++ tSuggs ++ cSuggs }

/-- The action dict returned by `_decide_next_action`. -/
structure NextAction where
  action : String
  task : Option Task := none
  reason : Option String := none
  deriving DecidableEq, Repr

/-- The fixed `thought` string of `_decide_next_action`. -/
def decideThought : String :=
  "Deciding next action based on research progress"

/-- `task.args.get('query', 'N/A')` rendered into the scratchpad f-string. -/
def queryArgStr (args : List (String × ArgVal)) : String :=
  match args.find? (fun kv => kv.1 == "query") with
  | some (_, ArgVal.str s) => s
  | some (_, ArgVal.nat n) => toString n
  | none => "N/A"

/-- The no-ready-task tail of `_decide_next_action`
(src/enhanced_autonomous_researcher.py lines 243-277).  When suggestions
exist the source reads `context.task_graph.tasks` unconditionally, which
raises AttributeError when the graph is `None`; with a graph it appends
one new `ADDED_{idx}_{now}` web_search task per suggestion (the source
stamps each with `datetime.now().isoformat()`, an environment input
passed here as `now`), then executes a newly ready task if any. -/
def decideGapBranch (c : EContext) (now : String) :
    Except String (NextAction × EContext) :=
  let gr := identifyGaps c
  let c1 := addToScratchpad c decideThought "identify_gaps"
    ("Found " ++ toString gr.gaps.length ++ " gaps")
  if gr.suggestions.isEmpty then
    if eCanPerformAction c1 "synthesize_current_findings" then
      .ok ({ action := "synthesize_current_findings" }, c1)
    else
      .ok ({ action := "complete", reason := some "no_gaps_found" }, c1)
  else
    match c1.task_graph with
    | none => .error "AttributeError: NoneType has no attribute tasks"
    | some g =>
      let lastTaskId := match g.tasks.getLast? with
        | some t => t.id
        | none => ""
      let added := gr.suggestions.enum.map (fun is =>
        ({ id := "ADDED_" ++ toString is.1 ++ "_" ++ now
           tool := "web_search"
           args := [("query", ArgVal.str is.2.query)]
           depends_on := if lastTaskId ≠ "" then [lastTaskId] else [] } : Task))
      let g2 : ResearchGraph := { g with tasks := g.tasks ++ added }
      let c2 := { c1 with task_graph := some g2 }
      let act : NextAction :=
        match getReadyTasks g2 with
        | task :: _ => { action := "execute_task", task := some task }
        | [] => { action := "complete", reason := some "research_complete" }
      .ok (act, c2)

/-- `EnhancedAutonomousResearchAgent._decide_next_action`
(src/enhanced_autonomous_researcher.py lines 219-277): forced completion at
`failed_attempts >= 5`; otherwise execute the first ready task of the
graph when one exists — without consulting `can_perform_action` — and fall
to the gap branch otherwise. -/
def enhancedDecide (c : EContext) (now : String) :
    Except String (NextAction × EContext) :=
  if 5 ≤ c.failed_attempts then
    .ok ({ action := "complete", reason := some "max_attempts_reached" }, c)
  else
    match c.task_graph with
    | some g =>
      match getReadyTasks g with
      | task :: _ =>
        let c1 := addToScratchpad c decideThought "execute_task"
          ("Selected task: " ++ task.tool ++ " for " ++ queryArgStr task.args)
        .ok ({ action := "execute_task", task := some task }, c1)
      | [] => decideGapBranch c now
    | none => decideGapBranch c now

/-- `EnhancedAutonomousResearchAgent._is_research_complete`
(src/enhanced_autonomous_researcher.py lines 721-736): unlike the
autonomous agent's version it compares against `goal.quality_threshold`,
reads the stored `completed_criteria` without re-deriving them, and has no
`failed_attempts` escape (the locals computed on lines 726-727 are
unused). -/
def eIsResearchComplete (c : EContext) : Bool :=
  decide (c.goal.min_sources ≤ c.sources.length) &&
    decide (c.goal.quality_threshold ≤ c.quality_score) &&
    decide (3 ≤ c.completed_criteria.length)

/-- A one-task completed graph for the C4/C8 concrete inputs. -/
def g8 : ResearchGraph :=
  { topic := "t"
    tasks := [ { id := "T0", tool := "web_search", args := [], depends_on := [],
                 status := "completed" } ] }

/-- Counterexample context for C8: all four perspectives covered, empty
key themes, but fewer sources than `min_sources`, so `_identify_gaps`
yields exactly one broad-search suggestion; the graph has no ready task. -/
def ctx8 : EContext :=
  { goal := {}
    sources :=
      [ { perspective := some "evangelical" }
      , { perspective := some "progressive" }
      , { perspective := some "orthodox" }
      , { perspective := some "academic" } ]
    task_graph := some g8 }

/-- A pending, dependency-free task. -/
def g4ready : Task :=
  { id := "R0", tool := "web_search",
    args := [("query", ArgVal.str "q")], depends_on := [] }

/-- A graph with one ready task. -/
def g4 : ResearchGraph :=
  { topic := "t", tasks := [g4ready] }

/-- Counterexample context for C4: `execute_task` has been recorded three
times in a row, yet a ready task remains. -/
def ctx4 : EContext :=
  { goal := {}
    action_history := ["execute_task", "execute_task", "execute_task"]
    task_graph := some g4 }

/-! ## Embedding of `TaskPlanner.create_plan` (src/task_graph.py) -/

/-- The opening brace character. -/
def lbrace : Char := Char.ofNat 123

/-- The closing brace character. -/
def rbrace : Char := Char.ofNat 125

/-- Python `str.format(topic=..., safe_topic=...)` restricted to the
placeholder keys the planner's templates actually use, on char lists; the
first argument is recursion fuel (one more than the text length always
suffices).  Python raises on an unknown key or a stray brace; the
templates and the topics considered contain neither (see `hasBrace`). -/
def formatCharsF : Nat → List Char → List Char → List Char → List Char
  | 0, _, _, _ => []
  | _ + 1, [], _, _ => []
  | fuel + 1, c :: rest, topic, safe =>
    if c = lbrace then
      let key := rest.takeWhile (fun d => ! (d = rbrace))
      let rest2 := (rest.dropWhile (fun d => ! (d = rbrace))).drop 1
      (if key = "topic".data then topic
       else if key = "safe_topic".data then safe
       else []) ++ formatCharsF fuel rest2 topic safe
    else
      c :: formatCharsF fuel rest topic safe

/-- `value.format(topic=topic, safe_topic=safe_topic)`
(src/task_graph.py line 113). -/
def formatStr (s topic safe : String) : String :=
  ⟨formatCharsF (s.data.length + 1) s.data topic.data safe.data⟩

/-- The `safe_topic` computation (src/task_graph.py lines 104-105): keep
alphanumeric characters, spaces, hyphens and underscores; strip trailing
whitespace (after the filter only spaces can remain); replace spaces with
underscores. -/
def safeTopic (topic : String) : String :=
  let kept := topic.data.filter (fun c =>
    c.isAlphanum || c = ' ' || c = '-' || c = '_')
  let stripped := (kept.reverse.dropWhile (fun c => c = ' ')).reverse
  ⟨stripped.map (fun c => if c = ' ' then '_' else c)⟩

/-- One entry of `self.planning_templates["biblical_exegesis"]`
(src/task_graph.py lines 49-94). -/
structure TaskTemplate where
  id : String
  tool : String
  args : List (String × ArgVal)
  depends_on : List String
  deriving DecidableEq, Repr

/-- The planner's fresh `biblical_exegesis` template as `__init__` builds
it (src/task_graph.py lines 49-94). -/
def initialTemplates : List TaskTemplate :=
  [ { id := "SEARCH_PRIMARY", tool := "web_search"
      args := [("query", ArgVal.str "{topic} scholarly exegesis 2020..2025"),
               ("max_results", ArgVal.nat 5)]
      depends_on := [] }
  , { id := "SEARCH_SECONDARY", tool := "web_search"
      args := [("query", ArgVal.str "{topic} ancient near east context intertextuality"),
               ("max_results", ArgVal.nat 3)]
      depends_on := ["SEARCH_PRIMARY"] }
  , { id := "FETCH_PDFS", tool := "get_pdf"
      args := [("urls_from", ArgVal.str "SEARCH_PRIMARY")]
      depends_on := ["SEARCH_PRIMARY", "SEARCH_SECONDARY"] }
  , { id := "EXTRACT_CITATIONS", tool := "extract_metadata"
      args := [("pdf_ids_from", ArgVal.str "FETCH_PDFS")]
      depends_on := ["FETCH_PDFS"] }
  , { id := "CRITICAL_ANALYSIS", tool := "synthesize_research"
      args := [("sources_from", ArgVal.str "EXTRACT_CITATIONS"),
               ("topic", ArgVal.str "{topic}")]
      depends_on := ["EXTRACT_CITATIONS"] }
  , { id := "VALIDATE_CITATIONS", tool := "hallucination_check"
      args := [("content_from", ArgVal.str "CRITICAL_ANALYSIS"),
               ("citations_from", ArgVal.str "EXTRACT_CITATIONS")]
      depends_on := ["CRITICAL_ANALYSIS"] }
  , { id := "FINAL_REPORT", tool := "save_note"
      args := [("filename", ArgVal.str "{safe_topic}.md"),
               ("content_from", ArgVal.str "VALIDATE_CITATIONS")]
      depends_on := ["VALIDATE_CITATIONS"] } ]

/-- `TaskPlanner.create_plan` (src/task_graph.py lines 96-123).  The
source's `task_template.copy()` is a SHALLOW dict copy, so
`task_dict["args"]` is the very dict stored in the planner's template and
line 113 writes the formatted strings back into it; the embedding makes
this explicit by returning the planner's mutated template list alongside
the graph (the created tasks hold the same formatted args).  Only the
default `biblical_exegesis` plan type exists; `graph_id`/timestamps are
environment inputs left at their defaults. -/
def createPlan (templates : List TaskTemplate) (topic : String) :
    ResearchGraph × List TaskTemplate :=
  let safe := safeTopic topic
  let formatted := templates.map (fun t =>
    { t with args := t.args.map (fun kv =>
        match kv.2 with
        | ArgVal.str v => (kv.1, ArgVal.str (formatStr v topic safe))
        | ArgVal.nat n => (kv.1, ArgVal.nat n)) })
  let tasks := formatted.map (fun t =>
    ({ id := t.id, tool := t.tool, args := t.args,
       depends_on := t.depends_on } : Task))
  ({ topic := topic, tasks := tasks }, formatted)

/-- Whether a string holds a brace character. -/
def hasBrace (s : String) : Bool :=
  s.data.any (fun c => c == lbrace || c == rbrace)

/-- The `query` argument of a graph's SEARCH_PRIMARY task. -/
def primaryQuery (g : ResearchGraph) : Option String :=
  (g.tasks.find? (fun t => t.id == "SEARCH_PRIMARY")).map (fun t =>
    queryArgStr t.args)

/-! ## Embedding of src/validation_tools.py

The regular expressions the source actually runs are implemented directly
as scanners on char lists (ASCII input).  Scanners that skip over matched
spans take recursion fuel as their first argument; text length plus one
always suffices. -/

/-- Python regex `\w` on ASCII text. -/
def isWordChar (c : Char) : Bool :=
  c.isAlphanum || c = '_'

/-- Python regex `\s` / `str.isspace` on ASCII text. -/
def isPySpace (c : Char) : Bool :=
  c = ' ' || c = '\t' || c = '\n' || c = '\r' || c = '\x0b' || c = '\x0c'

/-- A source dict as `validate_citation_against_sources` reads it
(`source.get('title', '')`, `source.get('url', '')`). -/
structure VSource where
  title : String := ""
  url : String := ""
  deriving DecidableEq, Repr

/-- A citation dict built by `extract_citations` and enriched by
`detect_hallucinations` (`citation.update(validation)`).  The Python key
`end` is spelled `stop`.  The `url_validation` sub-dict and the
self-referential `citation` key written by `update` are not modelled; the
embedded functions never read them. -/
structure Citation where
  type : String
  text : String
  start : Nat
  stop : Nat
  validated : Bool := false
  source_url : Option String := none
  match_type : Option String := none
  confidence : Option ℚ := none
  matched_source : Option VSource := none
  deriving DecidableEq, Repr

/-- A claim dict built by `_extract_claims` (src/validation_tools.py lines
302-332): the source writes only `text`, `type` and `requires_citation` —
never `position`, which `_claim_has_citation_support` later reads with
`claim.get('position', 0)`. -/
structure FactClaim where
  text : String
  type : String := "factual_claim"
  requires_citation : Bool := true
  position : Option Int := none
  deriving DecidableEq, Repr

/-- Pattern 1, `\(([^)]+\d{4})\)`: at an opening paren, the closing paren
must be the first `)` after it, preceded by four digits with at least one
more character after the `(`.  Non-overlapping leftmost matches; the
captured group is the text между the parens. -/
def p1Scan : Nat → List Char → Nat → List Citation
  | 0, _, _ => []
  | _ + 1, [], _ => []
  | fuel + 1, c :: rest, i =>
    if c = '(' then
      let inner := rest.takeWhile (fun d => ! (d = ')'))
      match rest.drop inner.length with
      | ')' :: _ =>
        if 5 ≤ inner.length ∧ (inner.drop (inner.length - 4)).all Char.isDigit then
          { type := "citation", text := ⟨inner⟩, start := i,
            stop := i + inner.length + 2 } ::
            p1Scan fuel (rest.drop (inner.length + 1)) (i + inner.length + 2)
        else p1Scan fuel rest (i + 1)
      | _ => p1Scan fuel rest (i + 1)
    else p1Scan fuel rest (i + 1)

/-- `\(\d{4}\)` at the head of the list. -/
def parenYear (cs : List Char) : Bool :=
  match cs with
  | '(' :: a :: b :: c :: d :: ')' :: _ =>
    a.isDigit && b.isDigit && c.isDigit && d.isDigit
  | _ => false

/-- `\s*\(\d{4}\)` at the head; returns the consumed length. -/
def afterSpacesYear (cs : List Char) : Option Nat :=
  let sp := cs.takeWhile isPySpace
  if parenYear (cs.drop sp.length) then some (sp.length + 6) else none

/-- `\s+et\s+al\.?` followed by `\s*\(\d{4}\)` at the head (the optional
dot is taken greedily and given back when the year then fails, exactly as
the regex engine backtracks). -/
def etAlThenYear (cs : List Char) : Option Nat :=
  let sp1 := cs.takeWhile isPySpace
  if sp1.isEmpty then none
  else
    match cs.drop sp1.length with
    | 'e' :: 't' :: r2 =>
      let sp2 := r2.takeWhile isPySpace
      if sp2.isEmpty then none
      else
        match r2.drop sp2.length with
        | 'a' :: 'l' :: r4 =>
          let base := sp1.length + 2 + sp2.length + 2
          match r4 with
          | '.' :: r5 =>
            match afterSpacesYear r5 with
            | some n => some (base + 1 + n)
            | none => (afterSpacesYear r4).map (fun n => base + n)
          | _ => (afterSpacesYear r4).map (fun n => base + n)
        | _ => none
    | _ => none

/-- `(?:\s+et\s+al\.?)?\s*\(\d{4}\)`: the optional group is attempted
first (greedy), falling back to no group. -/
def p2Tail (cs : List Char) : Option Nat :=
  match etAlThenYear cs with
  | some n => some n
  | none => afterSpacesYear cs

/-- `\s+and\s+\w+` followed by `\s*\(\d{4}\)` at the head. -/
def andThenYear (cs : List Char) : Option Nat :=
  let sp1 := cs.takeWhile isPySpace
  if sp1.isEmpty then none
  else
    match cs.drop sp1.length with
    | 'a' :: 'n' :: 'd' :: r2 =>
      let sp2 := r2.takeWhile isPySpace
      if sp2.isEmpty then none
      else
        let r3 := r2.drop sp2.length
        let w := r3.takeWhile isWordChar
        if w.isEmpty then none
        else
          (afterSpacesYear (r3.drop w.length)).map (fun n =>
            sp1.length + 3 + sp2.length + w.length + n)
    | _ => none

/-- `(?:\s+and\s+\w+)?\s*\(\d{4}\)`. -/
def p3Tail (cs : List Char) : Option Nat :=
  match andThenYear cs with
  | some n => some n
  | none => afterSpacesYear cs

/-- Greedy `\w+` followed by `tail`, longest word run first (regex
backtracking order); returns the total match length. -/
def tryWordLens (tail : List Char → Option Nat) : Nat → List Char → Option Nat
  | 0, _ => none
  | k + 1, cs =>
    match tail (cs.drop (k + 1)) with
    | some n => some (k + 1 + n)
    | none => tryWordLens tail k cs

/-- Scanner for patterns 2 (`\w+(?:\s+et\s+al\.?)?\s*\(\d{4}\)`) and 3
(`\w+(?:\s+and\s+\w+)?\s*\(\d{4}\)`): leftmost, non-overlapping; the
captured group is the whole match. -/
def wordYearScan (tail : List Char → Option Nat) :
    Nat → List Char → Nat → List Citation
  | 0, _, _ => []
  | _ + 1, [], _ => []
  | fuel + 1, c :: rest, i =>
    match tryWordLens tail ((c :: rest).takeWhile isWordChar).length (c :: rest) with
    | some n =>
      { type := "citation", text := ⟨(c :: rest).take n⟩, start := i,
        stop := i + n } ::
        wordYearScan tail fuel ((c :: rest).drop n) (i + n)
    | none => wordYearScan tail fuel rest (i + 1)

/-- `https?://[^\s\)\]]+` at the head; returns the match length. -/
def urlMatchAt (cs : List Char) : Option Nat :=
  let tailFrom := fun (r : List Char) (pre : Nat) =>
    match r with
    | ':' :: '/' :: '/' :: r3 =>
      let body := r3.takeWhile (fun c => ! (isPySpace c || c = ')' || c = ']'))
      if body.isEmpty then none else some (pre + 3 + body.length)
    | _ => none
  match cs with
  | 'h' :: 't' :: 't' :: 'p' :: rest =>
    match rest with
    | 's' :: r =>
      match tailFrom r 5 with
      | some n => some n
      | none => tailFrom rest 4
    | _ => tailFrom rest 4
  | _ => none

/-- Scanner for the URL pattern. -/
def urlScan : Nat → List Char → Nat → List Citation
  | 0, _, _ => []
  | _ + 1, [], _ => []
  | fuel + 1, c :: rest, i =>
    match urlMatchAt (c :: rest) with
    | some n =>
      { type := "url", text := ⟨(c :: rest).take n⟩, start := i, stop := i + n,
        source_url := some ⟨(c :: rest).take n⟩ } ::
        urlScan fuel ((c :: rest).drop n) (i + n)
    | none => urlScan fuel rest (i + 1)

/-- `CitationValidator.extract_citations` (src/validation_tools.py lines
69-108): the three academic patterns are each run over the whole text and
their matches appended in pattern order, then the URL matches. -/
def extractCitations (text : String) : List Citation :=
  let cs := text.data
  let fuel := cs.length + 1
  p1Scan fuel cs 0 ++ wordYearScan p2Tail fuel cs 0 ++
    wordYearScan p3Tail fuel cs 0 ++ urlScan fuel cs 0

/-- `CitationValidator._validate_url_format` (src/validation_tools.py
lines 110-116) for the http(s) URLs the URL pattern extracts: the scheme
must be http or https and the netloc (authority up to `/`, `?` or `#`)
non-empty. -/
def validUrlFormat (url : String) : Bool :=
  let cs := url.data
  let netlocNonempty := fun (r : List Char) =>
    ! (r.takeWhile (fun c => ! (c = '/' || c = '?' || c = '#'))).isEmpty
  if "https://".data.isPrefixOf cs then netlocNonempty (cs.drop 8)
  else if "http://".data.isPrefixOf cs then netlocNonempty (cs.drop 7)
  else false

/-- `CitationValidator.validate_url` (src/validation_tools.py lines
118-223), reduced to the `accessible` flag `detect_hallucinations` reads:
format failures and over-long URLs are inaccessible; otherwise the HEAD
request's outcome is the network's answer, an environment input passed in
as `oracle`. -/
def validateUrlAccessible (oracle : String → Bool) (url : String) : Bool :=
  if ! validUrlFormat url then false
  else if 2048 < url.length then false
  else oracle url

/-- `re.findall(r'\w+', s)`: the maximal word-character runs. -/
def wordsOf : Nat → List Char → List String
  | 0, _ => []
  | _ + 1, [] => []
  | fuel + 1, c :: rest =>
    if isWordChar c then
      let w := (c :: rest).takeWhile isWordChar
      (⟨w⟩ : String) :: wordsOf fuel ((c :: rest).drop w.length)
    else wordsOf fuel rest

/-- `re.findall(r'\w+', s)` on a string. -/
def findallWords (s : String) : List String :=
  wordsOf (s.data.length + 1) s.data

/-- `len(set(title_words) & set(citation_words))`. -/
def matchingCount (titleWords citWords : List String) : Nat :=
  (titleWords.dedup.filter (fun w => citWords.contains w)).length

/-- `CitationValidator.validate_citation_against_sources`
(src/validation_tools.py lines 225-256) merged into the citation by
`citation.update(validation)`: the first source whose lower-cased title
shares at least 2 distinct words with the lower-cased citation text
validates it, with confidence `min(len(matching)/len(title_words), 1.0)`;
otherwise `no_match` with confidence 0. -/
def validateAgainstSources (sources : List VSource) (c : Citation) : Citation :=
  match sources with
  | [] =>
    { c with
      validated := false
      match_type := some "no_match"
      confidence := some 0
      matched_source := none }
  | s :: rest =>
    let titleWords := findallWords (strLower s.title)
    let citWords := findallWords (strLower c.text)
    let m := matchingCount titleWords citWords
    if 2 ≤ m then
      { c with
        validated := true
        match_type := some "title_match"
        confidence := some (min (ratio m titleWords.length) 1)
        matched_source := some s }
    else validateAgainstSources rest c

/-- `str.strip()` (both-ends whitespace strip). -/
def pyStrip (cs : List Char) : List Char :=
  ((cs.dropWhile isPySpace).reverse.dropWhile isPySpace).reverse

/-- The separator class of `re.split(r'[.!?]+', text)`. -/
def isSentSep (c : Char) : Bool :=
  c = '.' || c = '!' || c = '?'

/-- `re.split(r'[.!?]+', text)`: the pieces between maximal separator
runs, empty pieces included. -/
def splitSents : Nat → List Char → List (List Char)
  | 0, _ => []
  | fuel + 1, cs =>
    let piece := cs.takeWhile (fun c => ! isSentSep c)
    match cs.drop piece.length with
    | [] => [piece]
    | rest =>
      let seps := rest.takeWhile isSentSep
      piece :: splitSents fuel (rest.drop seps.length)

/-- Whole-word occurrence at index `i`: `\b w \b` with `w` starting and
ending in word characters (out-of-range neighbours count as non-word). -/
def wordAt (cs : List Char) (i : Nat) (w : List Char) : Bool :=
  w.isPrefixOf (cs.drop i) &&
  (decide (i = 0) || ! isWordChar (cs.getD (i - 1) ' ')) &&
  ! isWordChar (cs.getD (i + w.length) ' ')

/-- The verb alternatives of factual pattern 1. -/
def factVerbs : List String :=
  ["is", "was", "are", "were", "has", "had", "shows", "demonstrates",
   "proves", "indicates"]

/-- The connective alternatives of factual pattern 1. -/
def factConnectives : List String :=
  ["that", "how", "why"]

/-- `.*` between positions `a` and `j` (no newline: `.` does not match
`\n` without DOTALL). -/
def gapNoNewline (cs : List Char) (a j : Nat) : Bool :=
  decide (a ≤ j) && ((cs.drop a).take (j - a)).all (fun c => ! (c = '\n'))

/-- Factual pattern `\b(is|was|...)\b.*\b(that|how|why)\b` as a search
(existence of a match). -/
def factPat1 (cs : List Char) : Bool :=
  (List.range (cs.length + 1)).any (fun i =>
    factVerbs.any (fun v =>
      wordAt cs i v.data &&
      (List.range (cs.length + 1)).any (fun j =>
        factConnectives.any (fun w => wordAt cs j w.data) &&
        gapNoNewline cs (i + v.data.length) j)))

/-- Factual pattern `\baccording to\b` as a search. -/
def factPat2 (cs : List Char) : Bool :=
  (List.range (cs.length + 1)).any (fun i => wordAt cs i "according to".data)

/-- `\s+show\b` at index `j`. -/
def spacesThenShow (cs : List Char) (j : Nat) : Bool :=
  let sp := (cs.drop j).takeWhile isPySpace
  ! sp.isEmpty &&
  "show".data.isPrefixOf (cs.drop (j + sp.length)) &&
  ! isWordChar (cs.getD (j + sp.length + 4) ' ')

/-- Factual pattern `\bstudies?\s+show\b` as a search. -/
def factPat3 (cs : List Char) : Bool :=
  (List.range (cs.length + 1)).any (fun i =>
    (decide (i = 0) || ! isWordChar (cs.getD (i - 1) ' ')) &&
    "studie".data.isPrefixOf (cs.drop i) &&
    ((decide (cs.getD (i + 6) ' ' = 's') && spacesThenShow cs (i + 7)) ||
      spacesThenShow cs (i + 6)))

/-- Factual pattern `\bresearch\s+(indicates|shows|demonstrates)\b` as a
search. -/
def factPat4 (cs : List Char) : Bool :=
  (List.range (cs.length + 1)).any (fun i =>
    (decide (i = 0) || ! isWordChar (cs.getD (i - 1) ' ')) &&
    "research".data.isPrefixOf (cs.drop i) &&
    (let sp := (cs.drop (i + 8)).takeWhile isPySpace
     ! sp.isEmpty &&
     ["indicates", "shows", "demonstrates"].any (fun w =>
       w.data.isPrefixOf (cs.drop (i + 8 + sp.length)) &&
       ! isWordChar (cs.getD (i + 8 + sp.length + w.data.length) ' '))))

/-- Factual pattern `\b\d{4}\b.*\bfound\b` as a search (`\b\d{4}\b` is an
exactly-four-digit run since digits are word characters). -/
def factPat5 (cs : List Char) : Bool :=
  (List.range (cs.length + 1)).any (fun i =>
    (decide (i = 0) || ! isWordChar (cs.getD (i - 1) ' ')) &&
    ((cs.drop i).take 4).all Char.isDigit &&
    decide (4 ≤ (cs.drop i).length) &&
    ! isWordChar (cs.getD (i + 4) ' ') &&
    (List.range (cs.length + 1)).any (fun j =>
      wordAt cs j "found".data && gapNoNewline cs (i + 4) j))

/-- `CitationValidator._extract_claims` (src/validation_tools.py lines
302-332): split into sentences, strip, skip fragments shorter than 20
characters, and keep a sentence as one factual claim when any of the five
patterns matches case-insensitively (searching the lower-cased sentence
with the lower-case patterns).  No position is recorded. -/
def extractClaims (text : String) : List FactClaim :=
  let sentences := splitSents (text.data.length + 1) text.data
  sentences.filterMap (fun s0 =>
    let s := pyStrip s0
    if s.length < 20 then none
    else
      let low := s.map Char.toLower
      if factPat1 low || factPat2 low || factPat3 low || factPat4 low ||
          factPat5 low then
        some { text := ⟨s⟩ }
      else none)

/-- `CitationValidator._claim_has_citation_support`
(src/validation_tools.py lines 334-349): some validated citation's start
offset must lie within 500 of `claim.get('position', 0)` — and
`_extract_claims` never sets `position`, so the default 0 is always
used. -/
def claimHasCitationSupport (claim : FactClaim) (citations : List Citation) :
    Bool :=
  citations.any (fun c =>
    c.validated &&
    decide (((c.start : Int) - claim.position.getD 0).natAbs < 500))

/-- `CitationValidator._calculate_hallucination_risk`
(src/validation_tools.py lines 351-375): 0.0 outright when no claims were
extracted; otherwise the 0.5/0.3/0.2-weighted sum of the unsupported
ratio, the invalid-citation ratio and the uncovered share, capped at
1.0. -/
def calculateHallucinationRisk (citations : List Citation)
    (unsupported : List FactClaim) (totalClaims : Nat) : ℚ :=
  if totalClaims = 0 then 0
  else
    let unsupportedRatio := ratio unsupported.length (max totalClaims 1)
    let invalid := citations.filter (fun c => ! c.validated)
    let invalidRatio := ratio invalid.length (max citations.length 1)
    let coverage := ratio citations.length (max totalClaims 1)
    let risk := pyAdd (pyAdd (pyMul unsupportedRatio (mkRat 5 10))
        (pyMul invalidRatio (mkRat 3 10)))
      (pyMul (max (pySub 1 coverage) 0) (mkRat 2 10))
    min risk 1

/-- `CitationValidator._generate_recommendations`
(src/validation_tools.py lines 377-393). -/
def generateRecommendations (citations : List Citation)
    (unsupported : List FactClaim) : List String :=
  let invalidUrls := citations.filter (fun c => c.type == "url" && ! c.validated)
  let r1 := if ! invalidUrls.isEmpty then
    ["Fix " ++ toString invalidUrls.length ++ " invalid URLs"] else []
  let r2 := if ! unsupported.isEmpty then
    ["Add citations for " ++ toString unsupported.length ++
      " unsupported claims"] else []
  let lowConf := citations.filter (fun c => decide (c.confidence.getD 1 < mkRat 5 10))
  let r3 := if ! lowConf.isEmpty then
    ["Improve citation matching for " ++ toString lowConf.length ++
      " citations"] else []
  r1 ++ r2 ++ r3

/-- A Python value in the tool-call argument dict. -/
inductive PyVal where
  | pyStr (s : String)
  | pySources (l : List VSource)
  | pyInt (n : Int)
  | pyNone
  deriving DecidableEq, Repr

/-- The result dict of `detect_hallucinations` /
`safe_hallucination_check`. -/
structure HResult where
  content : PyVal
  citations : List Citation
  claims : List FactClaim
  unsupported_claims : List FactClaim
  hallucination_risk : ℚ
  validation_passed : Bool
  recommendations : List String
  error : Option String := none
  deriving DecidableEq, Repr

/-- `CitationValidator.detect_hallucinations` (src/validation_tools.py
lines 258-300).  URL-type citations are validated through `validate_url`
(network outcome = `oracle`); the others against the provided sources. -/
def detectHallucinations (oracle : String → Bool) (content : String)
    (sources : List VSource) : HResult :=
  let claims := extractClaims content
  let citations := (extractCitations content).map (fun c =>
    if c.type == "url" then
      { c with validated := validateUrlAccessible oracle c.text }
    else validateAgainstSources sources c)
  let unsupported := claims.filter (fun cl =>
    ! claimHasCitationSupport cl citations)
  let risk := calculateHallucinationRisk citations unsupported claims.length
  { content := PyVal.pyStr content
    citations := citations
    claims := claims
    unsupported_claims := unsupported
    hallucination_risk := risk
    validation_passed := decide (risk < mkRat 3 10)
    recommendations := generateRecommendations citations unsupported }

/-- `args.get(key, default)`. -/
def dictGet (args : List (String × PyVal)) (key : String) (dflt : PyVal) :
    PyVal :=
  match args.find? (fun kv => kv.1 == key) with
  | some kv => kv.2
  | none => dflt

/-- The body of `hallucination_check` (src/validation_tools.py lines
480-513): the input-validation raises become `Except.error`; database
persistence failures are swallowed by the source's inner try/except and
are not modelled. -/
def hallucinationCheckBody (oracle : String → Bool)
    (args : List (String × PyVal)) : Except String HResult :=
  if args.isEmpty then .error "Arguments must be a non-empty dictionary"
  else
    match dictGet args "content_from" (PyVal.pyStr "") with
    | PyVal.pyStr c =>
      match dictGet args "citations_from" (PyVal.pySources []) with
      | PyVal.pySources l =>
        if 1024 * 1024 < c.length then
          .error "Content too large for validation (max 1MB)"
        else .ok (detectHallucinations oracle c l)
      | _ => .error "Sources must be a list"
    | _ => .error "Content must be a string"

/-- `safe_hallucination_check` wrapping `hallucination_check`
(src/validation_tools.py lines 459-478): an exception from the body is
converted to the neutral manual-review result. -/
def safeHallucinationCheck (oracle : String → Bool)
    (args : List (String × PyVal)) : HResult :=
  match hallucinationCheckBody oracle args with
  | .ok r => r
  | .error e =>
    { content := dictGet args "content_from" (PyVal.pyStr "")
      citations := []
      claims := []
      unsupported_claims := []
      hallucination_risk := mkRat 5 10
      validation_passed := false
      recommendations := ["Hallucination check failed - manual review required"]
      error := some e }

/-- The risk formula exactly as the claim C5 / the spec word it, as a
function of the extracted counts, clamped to [0, 1]. -/
def riskFormula (nCit nInvalid nUnsup nClaims : Nat) : ℚ :=
  let w := (5 : ℚ)/10 * ((nUnsup : ℚ) / ((max nClaims 1 : ℕ) : ℚ)) +
    (3 : ℚ)/10 * ((nInvalid : ℚ) / ((max nCit 1 : ℕ) : ℚ)) +
    (2 : ℚ)/10 * max 0 (1 - (nCit : ℚ) / ((max nClaims 1 : ℕ) : ℚ))
  max 0 (min w 1)

/-- Counterexample content for C5: one citation, no extracted claims. -/
def content5 : String := "(Smith, 2023)"

/-- Failing input for C6: 27 repetitions of a 19-character filler push a
claim sentence to offset 513 and its adjacent citation to offset 556. -/
def content6 : String :=
  ⟨(List.replicate 27 ("Short filler here. ".data)).flatten⟩ ++
    "Research shows that ancient writers agree" ++ ". (Alpha Beta, 2021)"

/-- The single source validating the C6 citation (two shared title
words). -/
def sources6 : List VSource :=
  [{ title := "Alpha Beta Commentary" }]

/-- Erroring argument dict for C9: `content_from` is not a string. -/
def args9 : List (String × PyVal) :=
  [("content_from", PyVal.pyInt 3)]

/-! ## Theorems -/

theorem pyAdd_eq_add (a b : ℚ) : pyAdd a b = a + b := by
  have ha : ((a.den : ℚ)) ≠ 0 := Nat.cast_ne_zero.mpr (Rat.den_pos a).ne'
  have hb : ((b.den : ℚ)) ≠ 0 := Nat.cast_ne_zero.mpr (Rat.den_pos b).ne'
  rw [pyAdd, Rat.mkRat_eq_div]
  conv_rhs => rw [← Rat.num_div_den a, ← Rat.num_div_den b]
  push_cast
  field_simp

theorem pyMul_eq_mul (a b : ℚ) : pyMul a b = a * b := by
  have ha : ((a.den : ℚ)) ≠ 0 := Nat.cast_ne_zero.mpr (Rat.den_pos a).ne'
  have hb : ((b.den : ℚ)) ≠ 0 := Nat.cast_ne_zero.mpr (Rat.den_pos b).ne'
  rw [pyMul, Rat.mkRat_eq_div]
  conv_rhs => rw [← Rat.num_div_den a, ← Rat.num_div_den b]
  push_cast
  field_simp

theorem pySub_eq_sub (a b : ℚ) : pySub a b = a - b := by
  have ha : ((a.den : ℚ)) ≠ 0 := Nat.cast_ne_zero.mpr (Rat.den_pos a).ne'
  have hb : ((b.den : ℚ)) ≠ 0 := Nat.cast_ne_zero.mpr (Rat.den_pos b).ne'
  rw [pySub, Rat.mkRat_eq_div]
  conv_rhs => rw [← Rat.num_div_den a, ← Rat.num_div_den b]
  push_cast
  field_simp
  ring

theorem ratio_eq_div (a n : Nat) : ratio a n = (a : ℚ) / (n : ℚ) := by
  rw [ratio, Rat.mkRat_eq_div]
  push_cast
  rfl

theorem find_completed_eq_any (l : List Task)
    (h : (l.map Task.id).Nodup) (d : String) :
    (match findTask l d with
      | some dt => dt.status == "completed"
      | none => false)
    = l.any (fun u => u.id == d && u.status == "completed") := by
  induction l with
  | nil => simp [findTask]
  | cons t l ih =>
    simp only [List.map_cons, List.nodup_cons, List.mem_map] at h
    obtain ⟨h1, h2⟩ := h
    by_cases ht : t.id = d
    · have : l.any (fun u => u.id == d && u.status == "completed") = false := by
        rw [List.any_eq_false]
        intro u hu
        simp only [Bool.and_eq_true, beq_iff_eq, not_and]
        intro hid _
        exact h1 ⟨u, hu, by rw [hid, ht]⟩
      simp [findTask, List.find?, List.any_cons, ht, this]
    · have hbe : (t.id == d) = false := by
        simp [ht]
      have := ih h2
      simp only [findTask, List.find?, hbe, List.any_cons, Bool.false_and,
        Bool.false_or]
      simpa [findTask] using this

/-- C1: `GetReadyTasks` returns exactly the pending tasks whose every
dependency id names a completed task of the graph, in declaration order;
a pending task with a dangling dependency id is never returned, and the
function is total (never errors).  Stated for graphs with distinct task
ids (the planner's graphs have distinct ids); the source resolves a
dependency to the *first* task bearing the id, which coincides with
"names a task in the graph" exactly when ids are distinct. -/
theorem getReadyTasks_spec (g : ResearchGraph)
    (h : (g.tasks.map Task.id).Nodup) :
    getReadyTasks g = readyPerSpec g ∧
    List.Sublist (getReadyTasks g) g.tasks ∧
    (∀ t ∈ getReadyTasks g, t.status = "pending" ∧
      ∀ d ∈ t.depends_on, ∃ u ∈ g.tasks, u.id = d ∧ u.status = "completed") := by
  have key : getReadyTasks g = readyPerSpec g := by
    unfold getReadyTasks readyPerSpec
    apply List.filter_congr
    intro t _
    unfold depsCompleted
    congr 1
    congr 1
    funext d
    exact find_completed_eq_any g.tasks h d
  refine ⟨key, List.filter_sublist _, ?_⟩
  intro t ht
  rw [key] at ht
  unfold readyPerSpec at ht
  rw [List.mem_filter] at ht
  obtain ⟨-, hp⟩ := ht
  simp only [Bool.and_eq_true, beq_iff_eq, List.all_eq_true, List.any_eq_true] at hp
  refine ⟨hp.1, ?_⟩
  intro d hd
  obtain ⟨u, hu, hud⟩ := hp.2 d hd
  exact ⟨u, hu, hud.1, hud.2⟩

theorem getReadyTasks_spec_witness :
    ((g0.tasks.map Task.id).Nodup) ∧
    (getReadyTasks g0 = readyPerSpec g0 ∧
     List.Sublist (getReadyTasks g0) g0.tasks ∧
     (∀ t ∈ getReadyTasks g0, t.status = "pending" ∧
       ∀ d ∈ t.depends_on, ∃ u ∈ g0.tasks, u.id = d ∧ u.status = "completed")) :=
  ⟨by decide, getReadyTasks_spec g0 (by decide)⟩

/-- C2, counterexample: a context with `failed_attempts = 0` and
`quality_score = 0.5` strictly below the goal's `quality_threshold = 0.6`
on which `_is_research_complete` nevertheless returns `True` (the source
compares against the hardcoded `0.4`, not the goal threshold), refuting
"for every context with failed_attempts < 5 and quality_score below
goal.quality_threshold, IsComplete returns false". -/
theorem isResearchComplete_claim_false :
    isResearchComplete ctx2 = true ∧
    ctx2.failed_attempts < 5 ∧
    ctx2.quality_score < ctx2.goal.quality_threshold := by
  refine ⟨by decide, by decide, by decide⟩

/-- C2 (amended): the autonomous agent's `_is_research_complete` returns
true iff either `failed_attempts >= 5`, or `len(sources) >=
goal.min_sources`, `quality_score >= 0.4` (the hardcoded constant) and at
least 3 of the 5 recomputed completion criteria hold; the enhanced
agent's version instead returns true iff `len(sources) >=
goal.min_sources`, `quality_score >= goal.quality_threshold` and at least
3 entries sit in the stored (never re-derived) `completed_criteria`, with
no `failed_attempts` escape. -/
theorem isResearchComplete_amended :
    (∀ c : RContext, isResearchComplete c = true ↔
      (5 ≤ c.failed_attempts ∨
        (c.goal.min_sources ≤ c.sources.length ∧
         (4/10 : ℚ) ≤ c.quality_score ∧
         3 ≤ (completedCriteria c).length))) ∧
    (∀ c : EContext, eIsResearchComplete c = true ↔
      (c.goal.min_sources ≤ c.sources.length ∧
       c.goal.quality_threshold ≤ c.quality_score ∧
       3 ≤ c.completed_criteria.length)) := by
  have h410 : (mkRat 4 10 : ℚ) = 4/10 := by
    rw [Rat.mkRat_eq_div]
    norm_num
  constructor
  · intro c
    unfold isResearchComplete
    simp only [Bool.or_eq_true, Bool.and_eq_true, decide_eq_true_eq, h410]
    tauto
  · intro c
    unfold eIsResearchComplete
    simp only [Bool.and_eq_true, decide_eq_true_eq]
    tauto

/-- C3 (code bug): evaluating the completion criteria on a context with no
sources, the criterion `multiple_perspectives_represented` is recorded as
satisfied although zero of the required perspectives are present — the
source computes `perspectives_found = len(missing_perspectives)` and tests
that count against 2, so the criterion holds iff at least 2 perspectives
are MISSING, the opposite of the claim (and of the variable's own name). -/
theorem multiplePerspectives_criterion_bug :
    "multiple_perspectives_represented" ∈ completedCriteria ctx3 ∧
    presentPerspectives ctx3 = [] := by
  refine ⟨by decide, by decide⟩

/-- C7, counterexample: two sources carry insights with two distinct
perspectives but are not content-processed; `_assess_quality` grants the
0.2 perspective-diversity credit (it keys on the `insights` dict being
present), while the claim's formula — perspectives observed among
*processed* sources — yields 0. -/
theorem assessQuality_claim_false :
    assessQuality ctx7 ≠ assessQualityClaim ctx7 := by
  decide

/-- C7 (amended): `_assess_quality` equals the claimed weighted sum with
the perspective-diversity credit read from the sources carrying insights
(rather than the content-processed ones), its value always lies in [0, 1],
and on the empty context (`sources=[]`, `insights={}`) it is exactly 0. -/
theorem assessQuality_amended_spec :
    (∀ c : RContext, assessQuality c = assessQualityAmended c) ∧
    (∀ c : RContext, 0 ≤ assessQuality c ∧ assessQuality c ≤ 1) ∧
    assessQuality ctxEmpty = 0 := by
  have e1 : (mkRat 1 10 : ℚ) = 1/10 := by
    rw [Rat.mkRat_eq_div]
    norm_num
  have e2 : (mkRat 2 10 : ℚ) = 2/10 := by
    rw [Rat.mkRat_eq_div]
    norm_num
  have e3 : (mkRat 3 10 : ℚ) = 3/10 := by
    rw [Rat.mkRat_eq_div]
    norm_num
  have e4 : (mkRat 4 10 : ℚ) = 4/10 := by
    rw [Rat.mkRat_eq_div]
    norm_num
  have hIf : ∀ (p : Prop) [Decidable p] (x : ℚ), 0 ≤ x →
      (0:ℚ) ≤ if p then x else 0 := by
    intro p _ x hx
    split
    · exact hx
    · exact le_refl 0
  refine ⟨?_, fun c => ?_, by decide⟩
  · intro c
    unfold assessQuality assessQualityAmended
    simp only [pyAdd_eq_add, e1, e2, e3, e4]
  · unfold assessQuality
    simp only [pyAdd_eq_add]
    refine ⟨le_min ?_ (by norm_num), min_le_right _ _⟩
    have h2 : ∀ n : Nat,
        (0:ℚ) ≤ if 3 ≤ n then mkRat 4 10 else if 1 ≤ n then mkRat 2 10 else 0 := by
      intro n
      split
      · rw [e4]
        norm_num
      · split
        · rw [e2]
          norm_num
        · exact le_refl 0
    refine add_nonneg (add_nonneg (add_nonneg ?_ (h2 _)) ?_) ?_
    · refine hIf _ _ ?_
      rw [e3]
      norm_num
    · refine hIf _ _ ?_
      rw [e2]
      norm_num
    · refine hIf _ _ ?_
      rw [e1]
      norm_num

theorem addToScratchpad_task_graph (c : EContext) (t a r : String) :
    (addToScratchpad c t a r).task_graph = c.task_graph := rfl

theorem count3_iff (l : List String) (a : String) (h3 : 3 ≤ l.length) :
    3 ≤ (l.drop (l.length - 3)).count a ↔
      ∀ x ∈ l.drop (l.length - 3), x = a := by
  have hlrec : (l.drop (l.length - 3)).length = 3 := by
    rw [List.length_drop]
    omega
  have hcle : (l.drop (l.length - 3)).count a ≤ (l.drop (l.length - 3)).length :=
    List.count_le_length _ _
  rw [hlrec] at hcle
  constructor
  · intro hc
    have heq : (l.drop (l.length - 3)).count a = (l.drop (l.length - 3)).length := by
      omega
    intro x hx
    exact (List.count_eq_length.mp heq x hx).symm
  · intro hall
    have heq := List.count_eq_length.mpr (fun b hb => (hall b hb).symm)
    rw [hlrec] at heq
    omega

/-- C4 (amended): with the default `max_same_action_attempts = 3`, both
agents' `can_perform_action` return true whenever fewer than 3 actions
have been recorded, and otherwise return false exactly when the action
fills all of the last 3 history entries.  However the loop guard
constrains only the proposals that consult it: the enhanced
`_decide_next_action` proposes `execute_task` without consulting the
guard whenever the graph has a ready task (and `failed_attempts < 5`),
regardless of the action history. -/
theorem canPerformAction_loop_guard :
    (∀ (c : RContext) (a : String), c.max_same_action_attempts = 3 →
      (c.action_history.length < 3 → canPerformAction c a = true) ∧
      (3 ≤ c.action_history.length →
        (canPerformAction c a = false ↔
          ∀ x ∈ c.action_history.drop (c.action_history.length - 3), x = a))) ∧
    (∀ (c : EContext) (a : String), c.max_same_action_attempts = 3 →
      (c.action_history.length < 3 → eCanPerformAction c a = true) ∧
      (3 ≤ c.action_history.length →
        (eCanPerformAction c a = false ↔
          ∀ x ∈ c.action_history.drop (c.action_history.length - 3), x = a))) ∧
    (∀ (c : EContext) (now : String) (g : ResearchGraph) (t : Task)
      (ts : List Task),
      c.failed_attempts < 5 → c.task_graph = some g →
      getReadyTasks g = t :: ts →
      ∃ c1, enhancedDecide c now =
        .ok ({ action := "execute_task", task := some t }, c1)) := by
  refine ⟨?_, ?_, ?_⟩
  · intro c a hm
    unfold canPerformAction pyTakeLast
    rw [hm]
    rw [if_neg (by omega)]
    constructor
    · intro hlen
      apply decide_eq_true
      have h1 : (c.action_history.drop (c.action_history.length - 3)).count a ≤
          (c.action_history.drop (c.action_history.length - 3)).length :=
        List.count_le_length _ _
      rw [List.length_drop] at h1
      omega
    · intro hlen
      rw [decide_eq_false_iff_not, not_lt]
      exact count3_iff c.action_history a hlen
  · intro c a hm
    unfold eCanPerformAction pyTakeLast
    rw [hm]
    rw [if_neg (show ¬(3 = 0) by omega)]
    constructor
    · intro hlen
      rw [if_neg (by omega)]
    · intro hlen
      rw [if_pos hlen]
      by_cases hc : 3 ≤ (c.action_history.drop (c.action_history.length - 3)).count a
      · rw [if_pos hc]
        exact iff_of_true rfl ((count3_iff c.action_history a hlen).mp hc)
      · rw [if_neg hc]
        refine iff_of_false (by simp) ?_
        intro hall
        exact hc ((count3_iff c.action_history a hlen).mpr hall)
  · intro c now g t ts hf hg hr
    refine ⟨addToScratchpad c decideThought "execute_task"
      ("Selected task: " ++ t.tool ++ " for " ++ queryArgStr t.args), ?_⟩
    unfold enhancedDecide
    rw [if_neg (by omega)]
    simp only [hg, hr]

/-- C4 witness: concrete instantiations discharging every hypothesis of
`canPerformAction_loop_guard`. -/
theorem canPerformAction_loop_guard_witness :
    (ctx2.max_same_action_attempts = 3 ∧ ctx2.action_history.length < 3 ∧
      canPerformAction ctx2 "discover_sources" = true) ∧
    (ctx4.max_same_action_attempts = 3 ∧ 3 ≤ ctx4.action_history.length ∧
      (eCanPerformAction ctx4 "execute_task" = false ↔
        ∀ x ∈ ctx4.action_history.drop (ctx4.action_history.length - 3),
          x = "execute_task")) ∧
    (ctx4.failed_attempts < 5 ∧ ctx4.task_graph = some g4 ∧
      getReadyTasks g4 = [g4ready] ∧
      ∃ c1, enhancedDecide ctx4 "T" =
        .ok ({ action := "execute_task", task := some g4ready }, c1)) :=
  ⟨⟨rfl, by decide,
      (canPerformAction_loop_guard.1 ctx2 "discover_sources" rfl).1 (by decide)⟩,
   ⟨rfl, by decide,
      (canPerformAction_loop_guard.2.1 ctx4 "execute_task" rfl).2 (by decide)⟩,
   ⟨by decide, rfl, by decide,
      canPerformAction_loop_guard.2.2 ctx4 "T" g4 g4ready [] (by decide) rfl
        (by decide)⟩⟩

/-- C4, counterexample to the claim's consequent: after `execute_task`
has been recorded 3 times in a row, the enhanced decision policy proposes
`execute_task` again on the next call (it never consults the guard for
task execution). -/
theorem loopGuard_claim_false :
    ctx4.action_history = ["execute_task", "execute_task", "execute_task"] ∧
    ∃ c1, enhancedDecide ctx4 "T" =
      .ok ({ action := "execute_task", task := some g4ready }, c1) :=
  ⟨rfl, ⟨_, rfl⟩⟩

theorem gapBranch_graph (c : EContext) (now : String) (g : ResearchGraph)
    (hg : c.task_graph = some g) (a : NextAction) (c1 : EContext)
    (h : decideGapBranch c now = .ok (a, c1)) :
    ∃ g1, c1.task_graph = some g1 ∧ g.tasks <+: g1.tasks := by
  unfold decideGapBranch at h
  simp only [addToScratchpad_task_graph, hg] at h
  split at h
  · split at h
    · simp only [Except.ok.injEq, Prod.mk.injEq] at h
      obtain ⟨-, rfl⟩ := h
      exact ⟨g, by rw [addToScratchpad_task_graph, hg], List.prefix_rfl⟩
    · simp only [Except.ok.injEq, Prod.mk.injEq] at h
      obtain ⟨-, rfl⟩ := h
      exact ⟨g, by rw [addToScratchpad_task_graph, hg], List.prefix_rfl⟩
  · simp only [Except.ok.injEq, Prod.mk.injEq] at h
    obtain ⟨-, rfl⟩ := h
    exact ⟨_, rfl, ⟨_, rfl⟩⟩

/-- C8 (amended): a decision step never removes or replaces tasks — the
graph's task list before the call is always a prefix of the task list
after it; it MAY append new tasks (see the counterexample theorem for the
append). -/
theorem enhancedDecide_appendsOnly (c : EContext) (now : String)
    (g : ResearchGraph) (hg : c.task_graph = some g) (a : NextAction)
    (c1 : EContext) (h : enhancedDecide c now = .ok (a, c1)) :
    ∃ g1, c1.task_graph = some g1 ∧ g.tasks <+: g1.tasks := by
  unfold enhancedDecide at h
  rw [hg] at h
  split at h
  · simp only [Except.ok.injEq, Prod.mk.injEq] at h
    obtain ⟨-, rfl⟩ := h
    exact ⟨g, hg, List.prefix_rfl⟩
  · simp only [hg] at h
    rcases hr : getReadyTasks g with - | ⟨t, ts⟩
    · simp only [hr] at h
      exact gapBranch_graph c now g hg a c1 h
    · simp only [hr, Except.ok.injEq, Prod.mk.injEq] at h
      obtain ⟨-, rfl⟩ := h
      exact ⟨g, by rw [addToScratchpad_task_graph, hg], List.prefix_rfl⟩

/-- C8 witness: `enhancedDecide_appendsOnly` applied at the concrete
context `ctx8`. -/
theorem enhancedDecide_appendsOnly_witness :
    ctx8.task_graph = some g8 ∧
    ∃ a c1, enhancedDecide ctx8 "T" = .ok (a, c1) ∧
      ∃ g1, c1.task_graph = some g1 ∧ g8.tasks <+: g1.tasks :=
  ⟨rfl, _, _, rfl, enhancedDecide_appendsOnly ctx8 "T" g8 rfl _ _ rfl⟩

/-- C8, counterexample: one `_decide_next_action` call on `ctx8` grows
the task graph from 1 task to 2 — the decision loop does add tasks,
refuting the immutable-shape claim. -/
theorem taskGraph_shape_claim_false :
    (ctx8.task_graph.map (fun g => g.tasks.length)) = some 1 ∧
    ∃ a c1, enhancedDecide ctx8 "T" = .ok (a, c1) ∧
      (c1.task_graph.map (fun g => g.tasks.length)) = some 2 :=
  ⟨rfl, _, _, rfl, rfl⟩

theorem formatCharsF_id (fuel : Nat) :
    ∀ (cs t s : List Char), cs.length < fuel →
      (∀ c ∈ cs, (c == lbrace || c == rbrace) = false) →
      formatCharsF fuel cs t s = cs := by
  induction fuel with
  | zero =>
    intro cs _ _ hf _
    exact absurd hf (Nat.not_lt_zero _)
  | succ n ih =>
    intro cs t s hf h
    cases cs with
    | nil => rfl
    | cons c rest =>
      have hc := h c (List.mem_cons_self _ _)
      have hcl : ¬(c = lbrace) := by
        intro hEq
        subst hEq
        simp at hc
      show (if c = lbrace then _ else c :: formatCharsF n rest t s) = c :: rest
      rw [if_neg hcl]
      congr 1
      refine ih rest t s ?_ (fun d hd => h d (List.mem_cons_of_mem _ hd))
      simp only [List.length_cons] at hf
      omega

/-- C10: the planner's shallow `task_template.copy()` aliases the
template's `args` dict, so `create_plan` writes the formatted strings back
into the planner's shared template; for any first topic `t1` containing no
brace character, a second `create_plan(t2)` re-formats the already
substituted strings (a no-op) and the second graph's SEARCH_PRIMARY query
still carries `t1`'s substitution. -/
theorem createPlan_aliasing (t1 t2 : String) (h : hasBrace t1 = false) :
    primaryQuery (createPlan initialTemplates t1).1 =
      some (t1 ++ " scholarly exegesis 2020..2025") ∧
    primaryQuery (createPlan (createPlan initialTemplates t1).2 t2).1 =
      some (t1 ++ " scholarly exegesis 2020..2025") := by
  have hL1 : formatStr "{topic} scholarly exegesis 2020..2025" t1 (safeTopic t1) =
      t1 ++ " scholarly exegesis 2020..2025" := rfl
  have hsfx : ∀ c ∈ (" scholarly exegesis 2020..2025" : String).data,
      (c == lbrace || c == rbrace) = false := by decide
  have hnb : ∀ c ∈ (t1 ++ " scholarly exegesis 2020..2025").data,
      (c == lbrace || c == rbrace) = false := by
    intro c hc
    rcases List.mem_append.mp hc with h1 | h2
    · have := (List.any_eq_false.mp h) c h1
      simpa using this
    · exact hsfx c h2
  have hL2 : formatStr (t1 ++ " scholarly exegesis 2020..2025") t2 (safeTopic t2) =
      t1 ++ " scholarly exegesis 2020..2025" := by
    unfold formatStr
    rw [formatCharsF_id _ _ _ _ (Nat.lt_succ_self _) hnb]
  have hrfl1 : primaryQuery (createPlan initialTemplates t1).1 =
      some (formatStr "{topic} scholarly exegesis 2020..2025" t1 (safeTopic t1)) := rfl
  have hrfl2 : primaryQuery (createPlan (createPlan initialTemplates t1).2 t2).1 =
      some (formatStr
        (formatStr "{topic} scholarly exegesis 2020..2025" t1 (safeTopic t1))
        t2 (safeTopic t2)) := rfl
  refine ⟨?_, ?_⟩
  · rw [hrfl1, hL1]
  · rw [hrfl2, hL1, hL2]

/-- C10 witness: `createPlan_aliasing` at the concrete topics
"Genesis 1" then "Exodus 12". -/
theorem createPlan_aliasing_witness :
    hasBrace "Genesis 1" = false ∧
    (primaryQuery (createPlan initialTemplates "Genesis 1").1 =
        some ("Genesis 1" ++ " scholarly exegesis 2020..2025") ∧
      primaryQuery
          (createPlan (createPlan initialTemplates "Genesis 1").2 "Exodus 12").1 =
        some ("Genesis 1" ++ " scholarly exegesis 2020..2025")) :=
  ⟨by decide, createPlan_aliasing "Genesis 1" "Exodus 12" (by decide)⟩

theorem riskFormula_bounds (a b c d : Nat) :
    0 ≤ riskFormula a b c d ∧ riskFormula a b c d ≤ 1 := by
  unfold riskFormula
  exact ⟨le_max_left _ _, max_le zero_le_one (min_le_right _ _)⟩

theorem calcRisk_spec (citations : List Citation) (unsupported : List FactClaim)
    (total : Nat) :
    (total = 0 → calculateHallucinationRisk citations unsupported total = 0) ∧
    (total ≠ 0 → calculateHallucinationRisk citations unsupported total =
      riskFormula citations.length
        ((citations.filter (fun c => ! c.validated)).length)
        unsupported.length total) ∧
    0 ≤ calculateHallucinationRisk citations unsupported total ∧
    calculateHallucinationRisk citations unsupported total ≤ 1 := by
  have part1 : total = 0 → calculateHallucinationRisk citations unsupported total = 0 := by
    intro h
    unfold calculateHallucinationRisk
    rw [if_pos h]
  have part2 : total ≠ 0 → calculateHallucinationRisk citations unsupported total =
      riskFormula citations.length
        ((citations.filter (fun c => ! c.validated)).length)
        unsupported.length total := by
    intro h
    have e5 : (mkRat 5 10 : ℚ) = 5/10 := by
      rw [Rat.mkRat_eq_div]
      norm_num
    have e3 : (mkRat 3 10 : ℚ) = 3/10 := by
      rw [Rat.mkRat_eq_div]
      norm_num
    have e2 : (mkRat 2 10 : ℚ) = 2/10 := by
      rw [Rat.mkRat_eq_div]
      norm_num
    have hAB : ∀ u i cov : ℚ,
        u * (5/10) + i * (3/10) + max (1 - cov) 0 * (2/10) =
          5/10 * u + 3/10 * i + 2/10 * max 0 (1 - cov) := by
      intro u i cov
      rw [max_comm]
      ring
    unfold calculateHallucinationRisk riskFormula
    rw [if_neg h]
    simp only [pyAdd_eq_add, pyMul_eq_mul, pySub_eq_sub, ratio_eq_div, e5, e3, e2]
    rw [hAB]
    refine (max_eq_right (le_min (add_nonneg (add_nonneg (by positivity)
      (by positivity)) (mul_nonneg (by norm_num) (le_max_left _ _)))
      zero_le_one)).symm
  refine ⟨part1, part2, ?_, ?_⟩
  · by_cases h : total = 0
    · rw [part1 h]
    · rw [part2 h]
      exact (riskFormula_bounds _ _ _ _).1
  · by_cases h : total = 0
    · rw [part1 h]
      norm_num
    · rw [part2 h]
      exact (riskFormula_bounds _ _ _ _).2

/-- C5 (amended): `DetectHallucinations` computes `hallucination_risk` by
the claimed 0.5/0.3/0.2 formula — clamped to [0, 1] — whenever at least
one claim was extracted, but returns 0.0 outright when the extracted claim
count is 0 (so `validation_passed` is then true regardless of the
citations); `validation_passed` is exactly `risk < 0.3`, and the risk
always lies in [0, 1]. -/
theorem detectHallucinations_risk_amended (oracle : String → Bool)
    (content : String) (sources : List VSource) :
    ((detectHallucinations oracle content sources).claims.length = 0 →
      (detectHallucinations oracle content sources).hallucination_risk = 0 ∧
      (detectHallucinations oracle content sources).validation_passed = true) ∧
    ((detectHallucinations oracle content sources).claims.length ≠ 0 →
      (detectHallucinations oracle content sources).hallucination_risk =
        riskFormula
          (detectHallucinations oracle content sources).citations.length
          (((detectHallucinations oracle content sources).citations.filter
            (fun c => ! c.validated)).length)
          (detectHallucinations oracle content sources).unsupported_claims.length
          (detectHallucinations oracle content sources).claims.length) ∧
    ((detectHallucinations oracle content sources).validation_passed = true ↔
      (detectHallucinations oracle content sources).hallucination_risk < 3/10) ∧
    0 ≤ (detectHallucinations oracle content sources).hallucination_risk ∧
    (detectHallucinations oracle content sources).hallucination_risk ≤ 1 := by
  have e310 : (mkRat 3 10 : ℚ) = 3/10 := by
    rw [Rat.mkRat_eq_div]
    norm_num
  have h := calcRisk_spec
    (detectHallucinations oracle content sources).citations
    (detectHallucinations oracle content sources).unsupported_claims
    (detectHallucinations oracle content sources).claims.length
  have hIff : (detectHallucinations oracle content sources).validation_passed = true ↔
      (detectHallucinations oracle content sources).hallucination_risk < 3/10 := by
    show decide ((detectHallucinations oracle content sources).hallucination_risk <
      mkRat 3 10) = true ↔ _
    rw [decide_eq_true_eq, e310]
  refine ⟨fun h0 => ?_, fun h0 => h.2.1 h0, hIff, h.2.2⟩
  have hr : (detectHallucinations oracle content sources).hallucination_risk = 0 :=
    h.1 h0
  refine ⟨hr, ?_⟩
  rw [hIff, hr]
  norm_num

set_option maxRecDepth 100000 in
/-- C5 witness: the amended theorem applied at the concrete inputs
`content5` (zero claims) and `content6` (one claim). -/
theorem detectHallucinations_risk_amended_witness :
    ((detectHallucinations (fun _ => false) content5 []).claims.length = 0 ∧
      (detectHallucinations (fun _ => false) content5 []).hallucination_risk = 0 ∧
      (detectHallucinations (fun _ => false) content5 []).validation_passed = true) ∧
    ((detectHallucinations (fun _ => false) content6 sources6).claims.length ≠ 0 ∧
      (detectHallucinations (fun _ => false) content6 sources6).hallucination_risk =
        riskFormula
          (detectHallucinations (fun _ => false) content6 sources6).citations.length
          (((detectHallucinations (fun _ => false) content6 sources6).citations.filter
            (fun c => ! c.validated)).length)
          (detectHallucinations (fun _ => false) content6 sources6).unsupported_claims.length
          (detectHallucinations (fun _ => false) content6 sources6).claims.length) :=
  ⟨⟨by decide,
    (detectHallucinations_risk_amended (fun _ => false) content5 []).1 (by decide)⟩,
   ⟨by decide,
    (detectHallucinations_risk_amended (fun _ => false) content6 sources6).2.1
      (by decide)⟩⟩

set_option maxRecDepth 100000 in
/-- C5, counterexample: on `"(Smith, 2023)"` with no sources the extracted
claim count is 0 and the single citation is invalid; the claimed formula
gives 0.3 but the source returns 0.0 (and so passes validation). -/
theorem risk_claim_false :
    (detectHallucinations (fun _ => false) content5 []).claims.length = 0 ∧
    (detectHallucinations (fun _ => false) content5 []).citations.length = 1 ∧
    ((detectHallucinations (fun _ => false) content5 []).citations.filter
      (fun c => ! c.validated)).length = 1 ∧
    (detectHallucinations (fun _ => false) content5 []).unsupported_claims.length = 0 ∧
    riskFormula 1 1 0 0 = 3/10 ∧
    (detectHallucinations (fun _ => false) content5 []).hallucination_risk ≠
      riskFormula 1 1 0 0 := by
  have hf : riskFormula 1 1 0 0 = 3/10 := by
    unfold riskFormula
    norm_num [min_def, max_def]
  have h0 : (detectHallucinations (fun _ => false) content5 []).hallucination_risk
      = 0 := by decide
  refine ⟨by decide, by decide, by decide, by decide, hf, ?_⟩
  rw [hf, h0]
  norm_num

set_option maxRecDepth 100000 in
/-- C6 (code bug): on `content6` the only claim sits at offset 513 and its
validated citation starts at offset 556 — within 43 < 500 characters of
the claim — yet the claim is reported in `unsupported_claims`:
`_extract_claims` never records a `position`, so
`_claim_has_citation_support` measures the distance from the default 0,
not from the claim's own position. -/
theorem claimSupport_position_bug :
    ((detectHallucinations (fun _ => false) content6 sources6).claims.map
      (fun c => (c.text, c.position))) =
        [("Research shows that ancient writers agree", none)] ∧
    ((detectHallucinations (fun _ => false) content6 sources6).citations.map
      (fun c => (c.validated, c.start))) = [(true, 556)] ∧
    ((detectHallucinations (fun _ => false) content6 sources6).unsupported_claims.map
      (fun c => c.text)) = ["Research shows that ancient writers agree"] ∧
    (∃ pre post : String,
      content6 = pre ++ "Research shows that ancient writers agree" ++ post ∧
      pre.length = 513 ∧ ((556 : Int) - 513).natAbs < 500) := by
  refine ⟨by decide, by decide, by decide,
    ⟨⟨(List.replicate 27 ("Short filler here. ".data)).flatten⟩,
     ". (Alpha Beta, 2021)", rfl, by decide, by decide⟩⟩

/-- C9: whenever the body of `hallucination_check` raises, the
`safe_hallucination_check` wrapper swallows the exception and returns the
neutral result: the original `content_from`, empty citations, claims and
unsupported claims, risk 0.5, `validation_passed = False` and the
manual-review recommendation. -/
theorem safeHallucinationCheck_degrades (oracle : String → Bool)
    (args : List (String × PyVal)) (e : String)
    (h : hallucinationCheckBody oracle args = .error e) :
    safeHallucinationCheck oracle args =
      { content := dictGet args "content_from" (PyVal.pyStr "")
        citations := []
        claims := []
        unsupported_claims := []
        hallucination_risk := mkRat 5 10
        validation_passed := false
        recommendations := ["Hallucination check failed - manual review required"]
        error := some e } ∧
    (mkRat 5 10 : ℚ) = 1/2 := by
  constructor
  · unfold safeHallucinationCheck
    rw [h]
  · rw [Rat.mkRat_eq_div]
    norm_num

/-- C9 witness: the wrapper theorem at the erroring argument dict
`args9` (non-string `content_from`). -/
theorem safeHallucinationCheck_degrades_witness :
    hallucinationCheckBody (fun _ => false) args9 =
      .error "Content must be a string" ∧
    (safeHallucinationCheck (fun _ => false) args9 =
      { content := dictGet args9 "content_from" (PyVal.pyStr "")
        citations := []
        claims := []
        unsupported_claims := []
        hallucination_risk := mkRat 5 10
        validation_passed := false
        recommendations := ["Hallucination check failed - manual review required"]
        error := some "Content must be a string" } ∧
     (mkRat 5 10 : ℚ) = 1/2) :=
  ⟨rfl, safeHallucinationCheck_degrades (fun _ => false) args9
    "Content must be a string" rfl⟩

end RA
